import Mathlib

/-!
Verification development for the kubefleet scheduling engine surface:
change-detection watchers for placements and bindings, the per-cycle
CycleState container, and the member-agent heartbeat reconciler.

The watcher decision functions and the CycleState implementation are not
part of the sources at hand (only their integration tests and unit tests
are), so they are modelled from the specification text; the member-agent
reconciler (member_controller.go) is embedded from its source.
-/

/-- Condition status, mirroring metav1.ConditionStatus
(True / False / Unknown). -/
inductive CondStatus where
  | condTrue
  | condFalse
  | condUnknown
deriving DecidableEq, Repr

/-- A status condition, mirroring metav1.Condition: type, status, reason,
observedGeneration and lastTransitionTime (timestamps are modelled as
integers). -/
structure Condition where
  ctype : String
  status : CondStatus
  reason : String
  observedGeneration : Int
  lastTransitionTime : Int
deriving DecidableEq, Repr

/-- Modelled from the spec: the semantically relevant projection of a
condition, i.e. its type/status/reason/observedGeneration with
lastTransitionTime dropped (last-transition-time-only changes are
ignored by the watcher). -/
def condSemanticProj (c : Condition) : String × CondStatus × String × Int :=
  (c.ctype, c.status, c.reason, c.observedGeneration)

/-- Resource identifier used inside the failed/drifted/diffed placement
lists (group/version/kind/name/namespace). -/
structure ResourceIdentifier where
  group : String
  version : String
  kind : String
  name : String
  nspace : String
deriving DecidableEq, Repr

/-- A single observed drift/diff detail (path and the two values). -/
structure PatchDetail where
  path : String
  valueInHub : String
  valueInMember : String
deriving DecidableEq, Repr

/-- An entry of the failed-placement list: a resource identifier plus the
failed condition. -/
structure FailedResourcePlacement where
  resourceIdentifier : ResourceIdentifier
  condition : Condition
deriving DecidableEq, Repr

/-- An entry of the drifted-placement list. observationTime and
firstDriftedObservedTime are volatile timestamps. -/
structure DriftedResourcePlacement where
  resourceIdentifier : ResourceIdentifier
  observationTime : Int
  targetClusterObservedGeneration : Int
  firstDriftedObservedTime : Int
  observedDrifts : List PatchDetail
deriving DecidableEq, Repr

/-- An entry of the diffed-placement list. observationTime and
firstDiffedObservedTime are volatile timestamps. -/
structure DiffedResourcePlacement where
  resourceIdentifier : ResourceIdentifier
  observationTime : Int
  targetClusterObservedGeneration : Option Int
  firstDiffedObservedTime : Int
  observedDiffs : List PatchDetail
deriving DecidableEq, Repr

/-- Modelled from the spec: the timestamp-stripped structural projection
of a failed placement entry (the identifier and the semantically
relevant condition fields). -/
def failedStructuralProj (f : FailedResourcePlacement) :
    ResourceIdentifier × (String × CondStatus × String × Int) :=
  (f.resourceIdentifier, condSemanticProj f.condition)

/-- Modelled from the spec: the timestamp-stripped structural projection
of a drifted placement entry. -/
def driftedStructuralProj (d : DriftedResourcePlacement) :
    ResourceIdentifier × Int × List PatchDetail :=
  (d.resourceIdentifier, d.targetClusterObservedGeneration, d.observedDrifts)

/-- Modelled from the spec: the timestamp-stripped structural projection
of a diffed placement entry. -/
def diffedStructuralProj (d : DiffedResourcePlacement) :
    ResourceIdentifier × Option Int × List PatchDetail :=
  (d.resourceIdentifier, d.targetClusterObservedGeneration, d.observedDiffs)

/-- Order-insensitive comparison of two lists viewed as sets: every
element of one occurs in the other and vice versa. -/
def sameSet {α : Type} [DecidableEq α] (a b : List α) : Bool :=
  a.all (fun x => b.contains x) && b.all (fun x => a.contains x)

/-- Lifecycle state of a binding. -/
inductive BindingState where
  | scheduled
  | bound
  | unscheduled
deriving DecidableEq, Repr

/-- Binding spec: lifecycle state, snapshot references and the target
cluster. -/
structure BindingSpec where
  state : BindingState
  resourceSnapshotName : String
  schedulingPolicySnapshotName : String
  targetCluster : String
deriving DecidableEq, Repr

/-- Binding status: conditions plus the failed/drifted/diffed placement
lists. -/
structure BindingStatus where
  conditions : List Condition
  failedPlacements : List FailedResourcePlacement
  driftedPlacements : List DriftedResourcePlacement
  diffedPlacements : List DiffedResourcePlacement
deriving DecidableEq, Repr

/-- A binding object: name, optional namespace (cluster-scoped bindings
have none), labels, spec and status. -/
structure Binding where
  name : String
  nspace : Option String
  labels : List (String × String)
  spec : BindingSpec
  status : BindingStatus
deriving DecidableEq, Repr

/-- The label that tracks the owning placement of a binding. -/
def placementTrackingLabel : String := "kubernetes-fleet.io/parent-CRP"

/-- Look up a label value by its key. -/
def lookupLabel : List (String × String) → String → Option String
  | [], _ => none
  | (k, v) :: rest, key => if k == key then some v else lookupLabel rest key

/-- Modelled from the spec: the work-queue key of the placement that owns
a binding: the placement name taken from the tracking label for
cluster-scoped bindings, namespace/name for namespaced bindings. -/
def bindingOwnerKey (b : Binding) : String :=
  let p := (lookupLabel b.labels placementTrackingLabel).getD ""
  match b.nspace with
  | none => p
  | some ns => ns ++ "/" ++ p

/-- Modelled from the spec: a binding status update is semantically
relevant when a condition changed in a semantically relevant field
(type/status/reason/observedGeneration, ignoring lastTransitionTime), or
when one of the failed/drifted/diffed placement lists differs as a set
on the timestamp-stripped structural projection. -/
def bindingStatusSemanticallyChanged (old new : BindingStatus) : Bool :=
  !(decide (old.conditions.map condSemanticProj = new.conditions.map condSemanticProj))
  || !(sameSet (old.failedPlacements.map failedStructuralProj)
        (new.failedPlacements.map failedStructuralProj))
  || !(sameSet (old.driftedPlacements.map driftedStructuralProj)
        (new.driftedPlacements.map driftedStructuralProj))
  || !(sameSet (old.diffedPlacements.map diffedStructuralProj)
        (new.diffedPlacements.map diffedStructuralProj))

/-- Modelled from the spec: ShouldEnqueue for a binding update event.
Metadata-only and spec-only changes never enqueue; a status change
enqueues the key of the owning placement exactly when it is semantically
relevant. -/
def shouldEnqueueBindingUpdate (old new : Binding) : Option String :=
  if bindingStatusSemanticallyChanged old.status new.status then
    some (bindingOwnerKey new)
  else
    none

/-- Modelled from the spec: ShouldEnqueue for a binding delete event;
delete events always enqueue the owning placement. -/
def shouldEnqueueBindingDelete (b : Binding) : Option String :=
  some (bindingOwnerKey b)

example : sameSet [1, 2, 3] [3, 1, 2] = true := by decide
example : sameSet [1, 2] [1, 2, 4] = false := by decide

/-- Placement spec: a resource selector set, a placement policy (kept
abstract as a plain description string) and the revision history
limit. -/
structure PlacementSpec where
  resourceSelectors : List String
  policy : String
  revisionHistoryLimit : Option Int
deriving DecidableEq, Repr

/-- Placement status: conditions only (per-cluster decisions are not
needed by the watcher model). -/
structure PlacementStatus where
  conditions : List Condition
deriving DecidableEq, Repr

/-- A placement object: name, optional namespace (cluster-scoped
placements have none), generation, spec and status. -/
structure Placement where
  name : String
  nspace : Option String
  generation : Int
  spec : PlacementSpec
  status : PlacementStatus
deriving DecidableEq, Repr

/-- The work-queue key of a placement: name for cluster-scoped
placements, namespace/name for namespaced ones. -/
def placementKey (p : Placement) : String :=
  match p.nspace with
  | none => p.name
  | some ns => ns ++ "/" ++ p.name

/-- Modelled from the spec: ShouldEnqueue for a placement update event.
Spec changes (including a generation bump, since only spec edits bump
the generation) always enqueue; status-only changes never enqueue. -/
def shouldEnqueuePlacementUpdate (old new : Placement) : Option String :=
  if old.spec ≠ new.spec ∨ old.generation ≠ new.generation then
    some (placementKey new)
  else
    none

/-- Modelled from the spec: ShouldEnqueue for a placement delete event;
delete events always enqueue the placement. -/
def shouldEnqueuePlacementDelete (p : Placement) : Option String :=
  some (placementKey p)

/-- The error a CycleState read can fail with: the key is absent. -/
inductive CycleStateErr where
  | notFound (key : String)
deriving DecidableEq, Repr

/-- Modelled from the spec: the per-cycle state container. It holds the
cluster inventory snapshot (cluster names, in construction order), the
two precomputed membership indices (clusters with a scheduled-or-bound
binding and clusters with an obsolete binding), and the key/value
scratch store, modelled as an association list with unique keys. -/
structure CycleState (V : Type) where
  clusters : List String
  scheduledOrBoundBindingsMap : List String
  obsoleteBindingsMap : List String
  store : List (String × V)
deriving DecidableEq, Repr

/-- Modelled from the spec: build the scheduled-or-bound index from the
scheduled and bound binding lists; each binding contributes its target
cluster. -/
def prepareScheduledOrBoundBindingsMap (scheduled bound : List Binding) : List String :=
  (scheduled ++ bound).map (fun b => b.spec.targetCluster)

/-- Modelled from the spec: build the obsolete-binding index; each
obsolete binding contributes its target cluster. -/
def prepareObsoleteBindingsMap (obsolete : List Binding) : List String :=
  obsolete.map (fun b => b.spec.targetCluster)

/-- Modelled from the spec: construct a CycleState from the live cluster
list, the obsolete-binding list and the scheduled-or-bound-binding list,
with an empty scratch store. -/
def NewCycleState (V : Type) (clusters : List String)
    (obsoleteBindings scheduledOrBoundBindings : List Binding) : CycleState V :=
  { clusters := clusters
    scheduledOrBoundBindingsMap :=
      prepareScheduledOrBoundBindingsMap scheduledOrBoundBindings []
    obsoleteBindingsMap := prepareObsoleteBindingsMap obsoleteBindings
    store := [] }

/-- Modelled from the spec: Write inserts or overwrites the value at a
key. -/
def CycleState.Write {V : Type} (s : CycleState V) (k : String) (v : V) : CycleState V :=
  { s with store := (k, v) :: s.store.filter (fun p => p.1 != k) }

/-- Modelled from the spec: Read returns the value at a key and fails
with a not-found error if the key is absent. -/
def CycleState.Read {V : Type} (s : CycleState V) (k : String) : Except CycleStateErr V :=
  match s.store.find? (fun p => p.1 == k) with
  | some p => .ok p.2
  | none => .error (.notFound k)

/-- Modelled from the spec: Delete removes a key (a no-op when the key is
absent). -/
def CycleState.Delete {V : Type} (s : CycleState V) (k : String) : CycleState V :=
  { s with store := s.store.filter (fun p => p.1 != k) }

/-- Modelled from the spec: ListClusters returns the immutable inventory
snapshot in construction order. -/
def CycleState.ListClusters {V : Type} (s : CycleState V) : List String :=
  s.clusters

/-- Modelled from the spec: membership test against the precomputed
scheduled-or-bound index. -/
def CycleState.HasScheduledOrBoundBindingFor {V : Type} (s : CycleState V)
    (cluster : String) : Bool :=
  s.scheduledOrBoundBindingsMap.contains cluster

/-- Modelled from the spec: membership test against the precomputed
obsolete-binding index. -/
def CycleState.HasObsoleteBindingFor {V : Type} (s : CycleState V)
    (cluster : String) : Bool :=
  s.obsoleteBindingsMap.contains cluster

/-- A scratch-space operation performed on a CycleState after
construction. -/
inductive CycleOp (V : Type) where
  | write (k : String) (v : V)
  | del (k : String)
  | read (k : String)

/-- Apply one scratch-space operation (a read leaves the state
unchanged). -/
def applyCycleOp {V : Type} (s : CycleState V) : CycleOp V → CycleState V
  | .write k v => s.Write k v
  | .del k => s.Delete k
  | .read _ => s

/-- Apply a sequence of scratch-space operations in order. -/
def applyCycleOps {V : Type} (s : CycleState V) (ops : List (CycleOp V)) : CycleState V :=
  ops.foldl applyCycleOp s

/-- The object-store error kinds relevant to the member-agent
reconciler. -/
inductive ApiError where
  | conflict
  | serviceUnavailable
  | serverTimeout
  | tooManyRequests
  | notFound
  | internalError
deriving DecidableEq, Repr

/-- The retryable-error predicate passed to retry.OnError by
updateInternalMemberClusterWithRetry (member_controller.go): retry on
IsServiceUnavailable, IsServerTimeout and IsTooManyRequests only. -/
def retriableStatusUpdateError : ApiError → Bool
  | .serviceUnavailable => true
  | .serverTimeout => true
  | .tooManyRequests => true
  | _ => false

/-- retry.DefaultBackoff performs at most 4 attempts (Steps). -/
def defaultBackoffSteps : Nat := 4

/-- retry.DefaultBackoff starts at a base delay of 10 milliseconds
(Duration). -/
def defaultBackoffBaseMs : Nat := 10

/-- retry.DefaultBackoff multiplies the base delay by 5 per step
(Factor). -/
def defaultBackoffFactor : Nat := 5

/-- The semantics of client-go retry.OnError / wait.ExponentialBackoff:
the function is called while attempts remain; a success stops with no
error, a non-retryable error stops with that error, a retryable error
consumes a step and retries; when the steps are exhausted the most
recent error is returned. results i is the outcome of the i-th call
(none meaning success). -/
def retryOnErrorGo (retriable : ApiError → Bool) (results : Nat → Option ApiError) :
    Nat → Nat → Option ApiError → Option ApiError
  | 0, _, lastErr => lastErr
  | steps + 1, i, _ =>
    match results i with
    | none => none
    | some e =>
      if retriable e then retryOnErrorGo retriable results steps (i + 1) (some e)
      else some e

/-- retry.OnError over a given number of steps, starting at call 0 with
no recorded error. -/
def retryOnError (steps : Nat) (retriable : ApiError → Bool)
    (results : Nat → Option ApiError) : Option ApiError :=
  retryOnErrorGo retriable results steps 0 none

/-- updateInternalMemberClusterWithRetry (member_controller.go): retry
the status update with retry.DefaultBackoff (capped at the heartbeat
period) and the transient-error predicate. -/
def updateInternalMemberClusterWithRetry (results : Nat → Option ApiError) :
    Option ApiError :=
  retryOnError defaultBackoffSteps retriableStatusUpdateError results

/-- The base (pre-jitter) delay of the i-th backoff step in
milliseconds, as maintained by wait.Backoff.Step for
retry.DefaultBackoff with Cap set to the heartbeat period in
member_controller.go: the stored duration starts at 10ms and is
multiplied by the factor 5, truncated at the cap. -/
def backoffDurationMs (capMs : Nat) : Nat → Nat
  | 0 => defaultBackoffBaseMs
  | i + 1 => min (backoffDurationMs capMs i * defaultBackoffFactor) capMs

/-- 2 to the 31st, for the int32 twos-complement wrap. -/
def twoPow31 : Int := 2147483648

/-- 2 to the 32nd, for the int32 twos-complement wrap. -/
def twoPow32 : Int := 4294967296

/-- Twos-complement wrap of an integer into the int32 range, as Go
int32 arithmetic behaves on overflow. -/
def wrap32 (n : Int) : Int := (n + twoPow31) % twoPow32 - twoPow31

/-- member_controller.go: jitterPercent = 10 (we add plus or minus 5
percent jitter). -/
def jitterPercent : Int := 10

/-- member_controller.go Reconcile: hbinterval := 1000 *
imc.Spec.HeartbeatPeriodSeconds, computed in int32 arithmetic; the
result is in milliseconds. -/
def hbintervalMs (heartbeatPeriodSeconds : Int) : Int :=
  wrap32 (1000 * heartbeatPeriodSeconds)

/-- member_controller.go Reconcile: jitterRange :=
int64(hbinterval*jitterPercent) / 100, where the product is int32
arithmetic and the division is the truncated int64 division of Go. -/
def jitterRangeMs (heartbeatPeriodSeconds : Int) : Int :=
  Int.tdiv (wrap32 (hbintervalMs heartbeatPeriodSeconds * jitterPercent)) 100

/-- member_controller.go Reconcile: the RequeueAfter delay in
milliseconds, time.Duration(hbinterval) +
time.Duration(utilrand.Int63nRange(0, jitterRange) - jitterRange/2),
with r the value drawn by Int63nRange (uniform in [0, jitterRange)). -/
def requeueAfterMs (heartbeatPeriodSeconds r : Int) : Int :=
  hbintervalMs heartbeatPeriodSeconds +
    (r - Int.tdiv (jitterRangeMs heartbeatPeriodSeconds) 2)

example : jitterRangeMs 60 = 6000 := by decide
example : requeueAfterMs 60 0 = 57000 := by decide
example : updateInternalMemberClusterWithRetry (fun _ => some .conflict) = some .conflict := by decide

/-- A list always agrees with itself as a set. -/
theorem sameSet_self {α : Type} [DecidableEq α] (a : List α) : sameSet a a = true := by
  simp [sameSet, List.all_eq_true]

/-- Fixture: a RolloutStarted-like condition with the given status. -/
def fixtureCondition (s : CondStatus) (ltt : Int) : Condition :=
  { ctype := "Applied"
    status := s
    reason := "testReason1"
    observedGeneration := 1
    lastTransitionTime := ltt }

/-- Fixture: a failed Service placement entry. -/
def svcFailedPlacement (ltt : Int) : FailedResourcePlacement :=
  { resourceIdentifier :=
      { group := ""
        version := "v1"
        kind := "Service"
        name := "svc-name"
        nspace := "svc-namespace" }
    condition :=
      { ctype := "Available"
        status := .condFalse
        reason := "fakeFailedAvailableReason"
        observedGeneration := 0
        lastTransitionTime := ltt } }

/-- Fixture: a failed ConfigMap placement entry. -/
def configFailedPlacement (ltt : Int) : FailedResourcePlacement :=
  { resourceIdentifier :=
      { group := ""
        version := "v1"
        kind := "ConfigMap"
        name := "config-name"
        nspace := "config-namespace" }
    condition :=
      { ctype := "Available"
        status := .condFalse
        reason := "fakeFailedAvailableReason"
        observedGeneration := 0
        lastTransitionTime := ltt } }

/-- Fixture: a cluster-scoped binding owned by test-placement, with the
given status. -/
def fixtureBinding (st : BindingStatus) : Binding :=
  { name := "test-crb"
    nspace := none
    labels := [(placementTrackingLabel, "test-placement")]
    spec :=
      { state := .scheduled
        resourceSnapshotName := "test-rs"
        schedulingPolicySnapshotName := "test-sps"
        targetCluster := "test-cluster" }
    status := st }

/-- Fixture: the old binding for the C1 counterexample: two failed
placements in Service-then-ConfigMap order and a condition with status
True. -/
def c1OldBinding : Binding :=
  fixtureBinding
    { conditions := [fixtureCondition .condTrue 0]
      failedPlacements := [svcFailedPlacement 3, configFailedPlacement 3]
      driftedPlacements := []
      diffedPlacements := [] }

/-- Fixture: the new binding for the C1 counterexample: the same failed
placements reordered (and with fresh volatile timestamps), but with the
condition status flipped to False. -/
def c1NewBinding : Binding :=
  fixtureBinding
    { conditions := [fixtureCondition .condFalse 7]
      failedPlacements := [configFailedPlacement 9, svcFailedPlacement 9]
      driftedPlacements := []
      diffedPlacements := [] }

/-- Fixture: like c1OldBinding but with the ConfigMap entry removed from
the failed list (an element removed from the set). -/
def c1ShrunkBinding : Binding :=
  fixtureBinding
    { conditions := [fixtureCondition .condTrue 0]
      failedPlacements := [svcFailedPlacement 11]
      driftedPlacements := []
      diffedPlacements := [] }

/-- Claim C1 counterexample: a status update whose failed/drifted/diffed
lists are permutations (as sets on the timestamp-stripped structural
projection) of the old lists, yet ShouldEnqueue does enqueue the owning
placement, because a semantically relevant condition field (the status)
changed in the same update. The claim as stated quantifies over all such
updates and is therefore false. -/
theorem c1_permuted_lists_can_still_enqueue :
    sameSet (c1OldBinding.status.failedPlacements.map failedStructuralProj)
      (c1NewBinding.status.failedPlacements.map failedStructuralProj) = true
    ∧ sameSet (c1OldBinding.status.driftedPlacements.map driftedStructuralProj)
      (c1NewBinding.status.driftedPlacements.map driftedStructuralProj) = true
    ∧ sameSet (c1OldBinding.status.diffedPlacements.map diffedStructuralProj)
      (c1NewBinding.status.diffedPlacements.map diffedStructuralProj) = true
    ∧ shouldEnqueueBindingUpdate c1OldBinding c1NewBinding = some "test-placement" := by
  decide

/-- Claim C1 (amended): provided the semantically relevant condition
fields are unchanged, a binding status update whose failed/drifted/
diffed lists are set-equal to the old ones on the timestamp-stripped
structural projection does not enqueue; and any update under which one
of these lists, viewed as such a set, gains or loses an element enqueues
the key of the owning placement. -/
theorem bindingUpdateEnqueueMatchesSetDiff (old new : Binding) :
    (old.status.conditions.map condSemanticProj = new.status.conditions.map condSemanticProj →
      sameSet (old.status.failedPlacements.map failedStructuralProj)
        (new.status.failedPlacements.map failedStructuralProj) = true →
      sameSet (old.status.driftedPlacements.map driftedStructuralProj)
        (new.status.driftedPlacements.map driftedStructuralProj) = true →
      sameSet (old.status.diffedPlacements.map diffedStructuralProj)
        (new.status.diffedPlacements.map diffedStructuralProj) = true →
      shouldEnqueueBindingUpdate old new = none)
    ∧ (sameSet (old.status.failedPlacements.map failedStructuralProj)
        (new.status.failedPlacements.map failedStructuralProj) = false
      ∨ sameSet (old.status.driftedPlacements.map driftedStructuralProj)
        (new.status.driftedPlacements.map driftedStructuralProj) = false
      ∨ sameSet (old.status.diffedPlacements.map diffedStructuralProj)
        (new.status.diffedPlacements.map diffedStructuralProj) = false →
      shouldEnqueueBindingUpdate old new = some (bindingOwnerKey new)) := by
  constructor
  · intro hc hf hd hdf
    simp [shouldEnqueueBindingUpdate, bindingStatusSemanticallyChanged, hc, hf, hd, hdf]
  · intro h
    rcases h with h | h | h <;>
      simp [shouldEnqueueBindingUpdate, bindingStatusSemanticallyChanged, h]

/-- Claim C1 witness: the amended theorem applied at concrete inputs: an
update that leaves the lists untouched does not enqueue, and an update
that removes the ConfigMap entry from the failed set enqueues the key of
the owning placement. -/
theorem bindingUpdateEnqueueMatchesSetDiff_witness :
    shouldEnqueueBindingUpdate c1OldBinding c1OldBinding = none
    ∧ shouldEnqueueBindingUpdate c1OldBinding c1ShrunkBinding = some "test-placement" := by
  constructor
  · exact (bindingUpdateEnqueueMatchesSetDiff c1OldBinding c1OldBinding).1 rfl
      (by decide) (by decide) (by decide)
  · exact ((bindingUpdateEnqueueMatchesSetDiff c1OldBinding c1ShrunkBinding).2
      (Or.inl (by decide))).trans (by decide)

/-- Claim C2: a binding status update whose only difference is the
lastTransitionTime of a condition (so the semantic projections of the
conditions agree and the three placement lists are untouched) does not
enqueue; and an update that changes the status, reason or
observedGeneration of the condition at some position enqueues the key of
the owning placement. -/
theorem bindingConditionUpdateEnqueueRule (old new : Binding) :
    (old.status.conditions.map condSemanticProj = new.status.conditions.map condSemanticProj →
      old.status.failedPlacements = new.status.failedPlacements →
      old.status.driftedPlacements = new.status.driftedPlacements →
      old.status.diffedPlacements = new.status.diffedPlacements →
      shouldEnqueueBindingUpdate old new = none)
    ∧ (∀ (i : Nat) (c c' : Condition),
      old.status.conditions[i]? = some c →
      new.status.conditions[i]? = some c' →
      (c.status ≠ c'.status ∨ c.reason ≠ c'.reason
        ∨ c.observedGeneration ≠ c'.observedGeneration) →
      shouldEnqueueBindingUpdate old new = some (bindingOwnerKey new)) := by
  constructor
  · intro hc hf hd hdf
    simp [shouldEnqueueBindingUpdate, bindingStatusSemanticallyChanged, hc, hf, hd, hdf,
      sameSet_self]
  · intro i c c' hc hc' hdiff
    have hne : ¬ (old.status.conditions.map condSemanticProj
        = new.status.conditions.map condSemanticProj) := by
      intro heq
      have hi := congrArg (fun l => l[i]?) heq
      simp only [List.getElem?_map, hc, hc', Option.map_some'] at hi
      simp only [condSemanticProj, Option.some.injEq, Prod.mk.injEq] at hi
      rcases hdiff with h | h | h
      · exact h hi.2.1
      · exact h hi.2.2.1
      · exact h hi.2.2.2
    simp [shouldEnqueueBindingUpdate, bindingStatusSemanticallyChanged, hne]

/-- Fixture: like c1OldBinding with only the lastTransitionTime of the
condition moved forward. -/
def c2LttOnlyBinding : Binding :=
  fixtureBinding
    { conditions := [fixtureCondition .condTrue 10]
      failedPlacements := [svcFailedPlacement 3, configFailedPlacement 3]
      driftedPlacements := []
      diffedPlacements := [] }

/-- Fixture: like c1OldBinding with the condition status flipped to
False. -/
def c2StatusFlippedBinding : Binding :=
  fixtureBinding
    { conditions := [fixtureCondition .condFalse 0]
      failedPlacements := [svcFailedPlacement 3, configFailedPlacement 3]
      driftedPlacements := []
      diffedPlacements := [] }

/-- Claim C2 witness: at concrete inputs, a last-transition-time-only
update does not enqueue, while a condition status flip enqueues the key
of the owning placement. -/
theorem bindingConditionUpdateEnqueueRule_witness :
    shouldEnqueueBindingUpdate c1OldBinding c2LttOnlyBinding = none
    ∧ shouldEnqueueBindingUpdate c1OldBinding c2StatusFlippedBinding = some "test-placement" := by
  constructor
  · exact (bindingConditionUpdateEnqueueRule c1OldBinding c2LttOnlyBinding).1 rfl rfl rfl rfl
  · exact ((bindingConditionUpdateEnqueueRule c1OldBinding c2StatusFlippedBinding).2
      0 (fixtureCondition .condTrue 0) (fixtureCondition .condFalse 0) rfl rfl
      (Or.inl (by decide))).trans (by decide)

/-- Claim C5: a binding update that does not touch the status (for
example a metadata-only or spec-only change) never enqueues. -/
theorem bindingNonStatusUpdateNeverEnqueues (old new : Binding)
    (h : old.status = new.status) : shouldEnqueueBindingUpdate old new = none := by
  simp [shouldEnqueueBindingUpdate, bindingStatusSemanticallyChanged, h, sameSet_self]

/-- Fixture: like c1OldBinding with an extra label (a metadata-only
change). -/
def c5LabelledBinding : Binding :=
  { c1OldBinding with labels := c1OldBinding.labels ++ [("test-key", "test-value")] }

/-- Fixture: like c1OldBinding with the lifecycle state moved from
Scheduled to Bound (a spec-only change). -/
def c5BoundBinding : Binding :=
  { c1OldBinding with spec := { c1OldBinding.spec with state := .bound } }

/-- Claim C5 witness: at concrete inputs, a label-only update and a
Scheduled-to-Bound spec-only update both enqueue nothing. -/
theorem bindingNonStatusUpdateNeverEnqueues_witness :
    shouldEnqueueBindingUpdate c1OldBinding c5LabelledBinding = none
    ∧ shouldEnqueueBindingUpdate c1OldBinding c5BoundBinding = none :=
  ⟨bindingNonStatusUpdateNeverEnqueues c1OldBinding c5LabelledBinding rfl,
    bindingNonStatusUpdateNeverEnqueues c1OldBinding c5BoundBinding rfl⟩

/-- Claim C3: a delete event on a binding or on a placement always
enqueues the work-queue key of the owner (the tracking-label placement
for bindings, the placement itself for placements). -/
theorem deleteEventsAlwaysEnqueueOwner (b : Binding) (p : Placement) :
    shouldEnqueueBindingDelete b = some (bindingOwnerKey b)
    ∧ shouldEnqueuePlacementDelete p = some (placementKey p) :=
  ⟨rfl, rfl⟩

/-- Claim C4: a placement update that changes the spec (or bumps the
generation) enqueues the work-queue key of the placement; an update that
leaves spec and generation unchanged (a status-only update) enqueues
nothing. -/
theorem placementUpdateEnqueueRule (old new : Placement) :
    (old.spec ≠ new.spec ∨ old.generation ≠ new.generation →
      shouldEnqueuePlacementUpdate old new = some (placementKey new))
    ∧ (old.spec = new.spec → old.generation = new.generation →
      shouldEnqueuePlacementUpdate old new = none) := by
  constructor
  · intro h
    simp [shouldEnqueuePlacementUpdate, h]
  · intro hs hg
    simp [shouldEnqueuePlacementUpdate, hs, hg]

/-- Fixture: a cluster-scoped placement at generation 1. -/
def c4Placement : Placement :=
  { name := "my-crp"
    nspace := none
    generation := 1
    spec :=
      { resourceSelectors := ["v1/Service region=east"]
        policy := "pickAll"
        revisionHistoryLimit := none }
    status := { conditions := [] } }

/-- Fixture: c4Placement with an edited spec and the generation bumped. -/
def c4SpecEditedPlacement : Placement :=
  { c4Placement with
      generation := 2
      spec := { c4Placement.spec with revisionHistoryLimit := some 3 } }

/-- Fixture: c4Placement with only a status condition added. -/
def c4StatusOnlyPlacement : Placement :=
  { c4Placement with status := { conditions := [fixtureCondition .condTrue 0] } }

/-- Claim C4 witness: at concrete inputs, a spec edit with a generation
bump enqueues the placement key and a status-only update enqueues
nothing. -/
theorem placementUpdateEnqueueRule_witness :
    shouldEnqueuePlacementUpdate c4Placement c4SpecEditedPlacement = some "my-crp"
    ∧ shouldEnqueuePlacementUpdate c4Placement c4StatusOnlyPlacement = none := by
  constructor
  · exact ((placementUpdateEnqueueRule c4Placement c4SpecEditedPlacement).1
      (Or.inl (by decide))).trans (by decide)
  · exact (placementUpdateEnqueueRule c4Placement c4StatusOnlyPlacement).2 rfl rfl

/-- Scratch-store lemma: after filtering out a key, a lookup of that key
fails. -/
theorem find?_filter_ne_none {V : Type} (l : List (String × V)) (k : String) :
    (l.filter (fun p => p.1 != k)).find? (fun p => p.1 == k) = none := by
  induction l with
  | nil => rfl
  | cons hd tl ih =>
    by_cases h : hd.1 = k
    · simp [List.filter_cons, h, ih]
    · simp [List.filter_cons, h, List.find?_cons, ih]

/-- Scratch-store lemma: filtering out an absent key is a no-op. -/
theorem filter_ne_of_find?_none {V : Type} (l : List (String × V)) (k : String)
    (h : l.find? (fun p => p.1 == k) = none) : l.filter (fun p => p.1 != k) = l := by
  induction l with
  | nil => rfl
  | cons hd tl ih =>
    rw [List.find?_cons] at h
    by_cases hh : hd.1 = k
    · simp [hh] at h
    · simp only [List.filter_cons]
      simp only [bne_iff_ne, ne_eq, hh, not_false_eq_true, if_true]
      rw [ih]
      split at h
      · exact absurd h (by simp)
      · exact h

/-- Claim C6: for every CycleState and key, a Read after a Write returns
the written value; a Read after a Delete fails with the not-found error;
a second Write to the same key overwrites the value; and a Delete of an
absent key leaves the state unchanged. -/
theorem cycleStateScratchOps {V : Type} (s : CycleState V) (k : String) (v v' : V) :
    (s.Write k v).Read k = .ok v
    ∧ (s.Delete k).Read k = .error (.notFound k)
    ∧ ((s.Write k v).Write k v').Read k = .ok v'
    ∧ (s.store.find? (fun p => p.1 == k) = none → s.Delete k = s) := by
  refine ⟨?_, ?_, ?_, ?_⟩
  · simp [CycleState.Read, CycleState.Write, List.find?_cons]
  · simp only [CycleState.Read, CycleState.Delete]
    rw [find?_filter_ne_none]
  · simp [CycleState.Read, CycleState.Write, List.find?_cons]
  · intro h
    simp only [CycleState.Delete]
    rw [filter_ne_of_find?_none s.store k h]

/-- Fixture: a CycleState over string values whose scratch store already
holds one unrelated key. -/
def c6State : CycleState String :=
  { clusters := ["test-cluster"]
    scheduledOrBoundBindingsMap := []
    obsoleteBindingsMap := []
    store := [("other-key", "other-value")] }

/-- Claim C6 witness: the scratch-space contract applied at a concrete
state and key, including the no-op Delete of an absent key. -/
theorem cycleStateScratchOps_witness :
    (c6State.Write "key" "value").Read "key" = .ok "value"
    ∧ (c6State.Delete "key").Read "key" = .error (.notFound "key")
    ∧ ((c6State.Write "key" "value").Write "key" "value2").Read "key" = .ok "value2"
    ∧ c6State.Delete "key" = c6State :=
  ⟨(cycleStateScratchOps c6State "key" "value" "value2").1,
    (cycleStateScratchOps c6State "key" "value" "value2").2.1,
    (cycleStateScratchOps c6State "key" "value" "value2").2.2.1,
    (cycleStateScratchOps c6State "key" "value" "value2").2.2.2 rfl⟩

/-- Claim C7: on a freshly constructed CycleState, the scheduled-or-bound
membership test answers true exactly for the target clusters of the
scheduled-or-bound binding list, and the obsolete membership test
answers true exactly for the target clusters of the obsolete binding
list. -/
theorem cycleStateIndicesMatchBindingLists (V : Type) (cls : List String)
    (obs sob : List Binding) (c : String) :
    ((NewCycleState V cls obs sob).HasScheduledOrBoundBindingFor c = true
      ↔ ∃ b ∈ sob, b.spec.targetCluster = c)
    ∧ ((NewCycleState V cls obs sob).HasObsoleteBindingFor c = true
      ↔ ∃ b ∈ obs, b.spec.targetCluster = c) := by
  constructor
  · simp [NewCycleState, CycleState.HasScheduledOrBoundBindingFor,
      prepareScheduledOrBoundBindingsMap, List.mem_map, eq_comm]
  · simp [NewCycleState, CycleState.HasObsoleteBindingFor,
      prepareObsoleteBindingsMap, List.mem_map, eq_comm]

/-- Scratch operations never touch the cluster inventory of a
CycleState. -/
theorem applyCycleOp_clusters {V : Type} (s : CycleState V) (op : CycleOp V) :
    (applyCycleOp s op).clusters = s.clusters := by
  cases op <;> rfl

/-- Claim C8: after any sequence of Write/Read/Delete operations on a
freshly constructed CycleState, ListClusters still returns exactly the
cluster list supplied at construction, in order. -/
theorem cycleStateListClustersImmutable (V : Type) (cls : List String)
    (obs sob : List Binding) (ops : List (CycleOp V)) :
    (applyCycleOps (NewCycleState V cls obs sob) ops).ListClusters = cls := by
  suffices h : ∀ s : CycleState V, (applyCycleOps s ops).clusters = s.clusters by
    simpa [CycleState.ListClusters, NewCycleState] using h (NewCycleState V cls obs sob)
  intro s
  induction ops generalizing s with
  | nil => rfl
  | cons op rest ih =>
    show (applyCycleOps (applyCycleOp s op) rest).clusters = s.clusters
    rw [ih (applyCycleOp s op), applyCycleOp_clusters]

/-- Fixture: an attempt sequence whose first status update fails with an
optimistic-concurrency conflict and whose later attempts would all
succeed. -/
def c9ConflictResults : Nat → Option ApiError :=
  fun i => if i = 0 then some .conflict else none

/-- Claim C9 counterexample: a status update that fails with an
optimistic-concurrency conflict is not retried by
updateInternalMemberClusterWithRetry: even though the very next attempt
would succeed, the helper returns the conflict error immediately,
because the retryable-error predicate covers only service-unavailable,
server-timeout and too-many-requests errors. -/
theorem conflictNotRetriedByStatusUpdateHelper :
    c9ConflictResults 1 = none
    ∧ updateInternalMemberClusterWithRetry c9ConflictResults = some ApiError.conflict := by
  decide

/-- Claim C9 (amended): service-unavailable, server-timeout and
throttling errors are retried by the status-update helper with the
bounded exponential client-go backoff (base 10ms, factor 5, at most 4
attempts, base delay truncated at the cap, which the reconciler sets to
the heartbeat period); a conflict error is surfaced immediately without
a retry; when all attempts fail with a transient error the helper gives
up and returns the last error rather than escalating. -/
theorem statusUpdateRetryPolicy (results : Nat → Option ApiError) (capMs : Nat) :
    (results 0 = some .conflict →
      updateInternalMemberClusterWithRetry results = some .conflict)
    ∧ (∀ e : ApiError, retriableStatusUpdateError e = true →
      results 0 = some e → results 1 = none →
      updateInternalMemberClusterWithRetry results = none)
    ∧ (∀ e : ApiError, retriableStatusUpdateError e = true →
      (∀ i, i < defaultBackoffSteps → results i = some e) →
      updateInternalMemberClusterWithRetry results = some e)
    ∧ (defaultBackoffBaseMs ≤ capMs → ∀ i,
      backoffDurationMs capMs i = min (defaultBackoffBaseMs * defaultBackoffFactor ^ i) capMs) := by
  refine ⟨?_, ?_, ?_, ?_⟩
  · intro h
    simp [updateInternalMemberClusterWithRetry, retryOnError, defaultBackoffSteps,
      retryOnErrorGo, h, retriableStatusUpdateError]
  · intro e he h0 h1
    simp [updateInternalMemberClusterWithRetry, retryOnError, defaultBackoffSteps,
      retryOnErrorGo, h0, h1, he]
  · intro e he hall
    have h0 := hall 0 (by decide)
    have h1 := hall 1 (by decide)
    have h2 := hall 2 (by decide)
    have h3 := hall 3 (by decide)
    simp [updateInternalMemberClusterWithRetry, retryOnError, defaultBackoffSteps,
      retryOnErrorGo, h0, h1, h2, h3, he]
  · intro hcap i
    induction i with
    | zero =>
      simp [backoffDurationMs, Nat.min_eq_left hcap]
    | succ n ih =>
      rw [backoffDurationMs, ih, pow_succ, ← mul_assoc]
      rcases le_total (defaultBackoffBaseMs * defaultBackoffFactor ^ n) capMs with h | h
      · rw [Nat.min_eq_left h]
      · rw [Nat.min_eq_right h]
        have hf : (0 : Nat) < defaultBackoffFactor := by norm_num [defaultBackoffFactor]
        have h1 : capMs ≤ capMs * defaultBackoffFactor := Nat.le_mul_of_pos_right _ hf
        have h2 : capMs ≤ defaultBackoffBaseMs * defaultBackoffFactor ^ n * defaultBackoffFactor :=
          le_trans h (Nat.le_mul_of_pos_right _ hf)
        rw [Nat.min_eq_right h1, Nat.min_eq_right h2]

/-- Fixture: an attempt sequence whose first status update fails with a
service-unavailable error and whose retry succeeds. -/
def c9TransientResults : Nat → Option ApiError :=
  fun i => if i = 0 then some .serviceUnavailable else none

/-- Claim C9 witness: the retry policy applied at concrete inputs: a
conflict on the first attempt is surfaced as is; a transient
service-unavailable error is retried and the helper succeeds; four
server-timeout failures exhaust the backoff and surface the last error;
the third base backoff delay under a 1000ms cap is min(10 * 25, 1000)
milliseconds. -/
theorem statusUpdateRetryPolicy_witness :
    updateInternalMemberClusterWithRetry c9ConflictResults = some ApiError.conflict
    ∧ updateInternalMemberClusterWithRetry c9TransientResults = none
    ∧ updateInternalMemberClusterWithRetry (fun _ => some .serverTimeout)
      = some ApiError.serverTimeout
    ∧ backoffDurationMs 1000 2 = min (10 * 5 ^ 2) 1000 := by
  refine ⟨(statusUpdateRetryPolicy c9ConflictResults 1000).1 rfl,
    (statusUpdateRetryPolicy c9TransientResults 1000).2.1 ApiError.serviceUnavailable rfl rfl rfl,
    (statusUpdateRetryPolicy (fun _ => some .serverTimeout) 1000).2.2.1 ApiError.serverTimeout rfl
      (fun i _ => rfl),
    (statusUpdateRetryPolicy c9ConflictResults 1000).2.2.2 (by norm_num [defaultBackoffBaseMs]) 2⟩

/-- Claim C10: for every heartbeat period P of a joined member cluster
(1 to 600 seconds, the CRD bounds) and every value the jitter draw can
take (Int63nRange yields r with 0 <= r < jitterRange), the RequeueAfter
delay computed by Reconcile in the Join branch lies in [950 * P,
1050 * P) milliseconds, i.e. in [0.95 * P, 1.05 * P) seconds: the
heartbeat interval plus at most 5 percent jitter either way. -/
theorem heartbeatRequeueJitterBounds (P r : Int) (hp1 : 1 ≤ P) (hp2 : P ≤ 600)
    (hr0 : 0 ≤ r) (hr : r < jitterRangeMs P) :
    950 * P ≤ requeueAfterMs P r ∧ requeueAfterMs P r < 1050 * P := by
  have e1 : hbintervalMs P = 1000 * P := by
    unfold hbintervalMs wrap32 twoPow31 twoPow32
    omega
  have e2 : jitterRangeMs P = 100 * P := by
    unfold jitterRangeMs jitterPercent
    rw [e1]
    have ew : wrap32 (1000 * P * 10) = 10000 * P := by
      unfold wrap32 twoPow31 twoPow32
      omega
    rw [ew, Int.tdiv_eq_ediv (by omega) (by norm_num)]
    omega
  unfold requeueAfterMs
  rw [e1, e2, Int.tdiv_eq_ediv (by omega) (by norm_num)]
  rw [e2] at hr
  omega

/-- Claim C10 witness: at the default heartbeat period of 60 seconds and
the smallest jitter draw, the requeue delay lies in [57000, 63000)
milliseconds. -/
theorem heartbeatRequeueJitterBounds_witness :
    950 * 60 ≤ requeueAfterMs 60 0 ∧ requeueAfterMs 60 0 < 1050 * 60 :=
  heartbeatRequeueJitterBounds 60 0 (by norm_num) (by norm_num) (le_refl 0) (by decide)
